import Mathlib

/-
Verification of the BHA payment-standards ETL scripts.

The development shallowly embeds the four Python scripts under scripts/:
  bha-payment-standards-future.py   (namespace BHAFuture)
  bha-rent-data-integration.py      (namespace BHARent)
  bha-data-integration.py           (namespace BHACkan)
  bha-2025-payment-standards.py     (namespace BHA2025)

External effects are made explicit:
  an HTTP fetch is an Option-valued input (none models a network failure,
  a non-2xx response, or any other caught exception of that stage);
  the relational database is a list of rows threaded through each function;
  a Bool input models whether the database engine raises during a write;
  clock readings (datetime.now().isoformat()) are a String input.
String scanning (the regular expressions and Python string and list
primitives the scripts use) is embedded over List Char so that every
definition evaluates by kernel reduction.
-/

/-- Decimal digit test on a character, by code point. -/
def pyIsDigit (c : Char) : Bool :=
  decide (48 ≤ c.toNat) && decide (c.toNat ≤ 57)

/-- First window of four consecutive decimal digits in a character list,
left to right; embeds re.search of the pattern d-curly-4 used by both
page-scan locators.  Returns the four digit characters. -/
def firstFourDigits : List Char → Option (List Char)
  | [] => none
  | a :: rest =>
    match rest with
    | b :: c :: d :: _ =>
      if pyIsDigit a && pyIsDigit b && pyIsDigit c && pyIsDigit d then some [a, b, c, d]
      else firstFourDigits rest
    | _ => none

/-- Numeric value of a list of digit characters; embeds Python int() applied
to the matched group. -/
def digitsToNat (ds : List Char) : Nat :=
  ds.foldl (fun n c => 10 * n + (c.toNat - 48)) 0

/-- Characters after the last slash; embeds s.split with the slash separator
indexed at -1, which both page-scan locators use to obtain a filename. -/
def lastComponent (s : String) : String :=
  String.mk (s.toList.foldl (fun acc c => if c = '/' then [] else acc ++ [c]) [])

/-- Python string comparison on code points, over character lists. -/
def strLtList : List Char → List Char → Bool
  | [], [] => false
  | [], _ :: _ => true
  | _ :: _, [] => false
  | a :: as, b :: bs =>
    if a.toNat < b.toNat then true
    else if b.toNat < a.toNat then false
    else strLtList as bs

/-- Python operator a < b on strings: lexicographic by code point. -/
def pyStrLt (s t : String) : Bool :=
  strLtList s.toList t.toList

/-- Boolean strict order on Nat, the key comparison used by Python max over
integer year keys. -/
def natLtB (a b : Nat) : Bool :=
  decide (a < b)

/-- Python max with a key function: the running maximum is replaced only when
a later element's key is strictly greater, so the first-seen maximal element
is returned; none on the empty list (Python max raises there, and every
caller guards for emptiness first). -/
def pyMaxBy (lt : β → β → Bool) (key : α → β) : List α → Option α
  | [] => none
  | x :: xs => some (xs.foldl (fun acc y => if lt (key acc) (key y) then y else acc) x)

/-- Test that a string consists of exactly four decimal digits; the shape of
every determined year key produced by the page-scan locators. -/
def isFourDigitStr (s : String) : Bool :=
  match s.toList with
  | [a, b, c, d] => pyIsDigit a && pyIsDigit b && pyIsDigit c && pyIsDigit d
  | _ => false

/-- Prefix test over strings via character lists; embeds str.startswith. -/
def strStartsWith (p s : String) : Bool :=
  p.toList.isPrefixOf s.toList

/-- Substring containment over character lists; embeds the Python operator
needle in haystack on strings. -/
def containsSub (needle : List Char) : List Char → Bool
  | [] => needle.isEmpty
  | c :: rest => needle.isPrefixOf (c :: rest) || containsSub needle rest

namespace BHAFuture

/-- Base origin of the scraped site, self.base_url in the source. -/
def base_url : String := "https://www.bostonhousing.org"

/-- Candidate built by the loop in find_latest_payment_standards: url, year
(as int) and filename keys of the dict appended to available_files. -/
structure Candidate where
  url : String
  year : Nat
  filename : String
deriving DecidableEq

/-- Relative-to-absolute URL resolution shared by both page-scan locators. -/
def full_url_of_match (m : String) : String :=
  if strStartsWith "/" m then base_url ++ m
  else if strStartsWith "http" m then m
  else base_url ++ "/" ++ m

/-- One iteration of the loop over regex matches in
find_latest_payment_standards: a match is turned into a candidate only when
a four-digit year occurs somewhere in the href; otherwise it is skipped. -/
def candidate_of_match (m : String) : Option Candidate :=
  match firstFourDigits m.toList with
  | none => none
  | some ds =>
    some { url := full_url_of_match m, year := digitsToNat ds, filename := lastComponent m }

/-- The available_files list accumulated over all regex matches. -/
def available_files (ms : List String) : List Candidate :=
  ms.filterMap candidate_of_match

/-- find_latest_payment_standards.  The input is none when the page fetch
raises (caught, logged, None returned); otherwise it is the list of href
values produced by the Payment-Standards pdf href regex over the page text.
On an empty candidate list the function returns None; otherwise it is
Python max keyed on the integer year. -/
def find_latest_payment_standards (page : Option (List String)) : Option Candidate :=
  match page with
  | none => none
  | some ms =>
    if (available_files ms).isEmpty then none
    else pyMaxBy natLtB (fun c => c.year) (available_files ms)

/-- check_for_updates.  current_year is the integer read from
current_year.txt, none when the marker file does not exist; latest is the
result of find_latest_payment_standards.  Returns False when no candidate
was found, True when there is no marker, and otherwise tests strictly
greater. -/
def check_for_updates (current_year : Option Int) (latest : Option Candidate) : Bool :=
  match latest with
  | none => false
  | some f =>
    match current_year with
    | none => true
    | some y => decide ((f.year : Int) > y)

/-- Row of the DataFrame built by extract_rent_data_from_pdf after the
rename and the four metadata column assignments. -/
structure Row where
  town : String
  zip_code : String
  studio_rent : Nat
  one_br_rent : Nat
  two_br_rent : Nat
  three_br_rent : Nat
  four_br_rent : Nat
  five_br_rent : Nat
  six_br_rent : Nat
  county : String
  source : String
  effective_year : Nat
  updated_at : String
deriving DecidableEq

/-- extract_rent_data_from_pdf.  The body never reads the file at pdf_path:
the byte content of that file is passed here explicitly (pdf_bytes) to make
that observable.  The three hardcoded sample rows are returned with the
renamed column names and the four metadata columns; only the year argument
and the clock reading (now) influence the output.  The except branch is
unreachable for this stub body, so the function is total. -/
def extract_rent_data_from_pdf (pdf_path : String) (pdf_bytes : List Nat)
    (year : Nat) (now : String) : List Row :=
  let src := "BHA " ++ toString year ++ " Payment Standards"
  [ { town := "Boston", zip_code := "02108", studio_rent := 3266, one_br_rent := 3450,
      two_br_rent := 4100, three_br_rent := 4950, four_br_rent := 5450, five_br_rent := 6250,
      six_br_rent := 7000, county := "Suffolk", source := src, effective_year := year,
      updated_at := now },
    { town := "Boston", zip_code := "02109", studio_rent := 3486, one_br_rent := 3749,
      two_br_rent := 4452, three_br_rent := 5387, four_br_rent := 5933, five_br_rent := 6822,
      six_br_rent := 7713, county := "Suffolk", source := src, effective_year := year,
      updated_at := now },
    { town := "Boston", zip_code := "02110", studio_rent := 3486, one_br_rent := 3749,
      two_br_rent := 4452, three_br_rent := 5387, four_br_rent := 5933, five_br_rent := 6822,
      six_br_rent := 7713, county := "Suffolk", source := src, effective_year := year,
      updated_at := now } ]

/-- SQL LIKE test for the literal pattern used by the DELETE statement in
save_to_database: the string BHA, a space, any run of characters, a space,
then Payment Standards.  The length bound keeps the two literal pieces from
overlapping, exactly as LIKE requires. -/
def likeBHAYearPattern (src : String) : Bool :=
  "BHA ".toList.isPrefixOf src.toList
    && " Payment Standards".toList.isSuffixOf src.toList
    && decide (22 ≤ src.toList.length)

/-- save_to_database of the future-proof script: on success it deletes every
row whose source matches the LIKE pattern and appends the new rows, and
returns True; db_ok=false models the engine raising, which is caught and
returns False with the table untouched. -/
def save_to_database (db_ok : Bool) (df : List Row) (db : List Row) : Bool × List Row :=
  if db_ok then (true, db.filter (fun r => !(likeBHAYearPattern r.source)) ++ df)
  else (false, db)

/-- External inputs of one run of the future-proof pipeline. -/
structure RunEnv where
  page : Option (List String)
  download_ok : Bool
  db_ok : Bool
  now : String

/-- The persisted state the pipeline can touch: the current_year.txt marker
and the rents relational table. -/
structure PipeState where
  marker : Option Int
  db : List Row
deriving DecidableEq

/-- run_full_pipeline of the future-proof script.  It locates the latest
candidate, downloads it, extracts, writes csv and json flat files (not part
of the tracked persisted state), calls save_to_database discarding its
Bool result exactly as the source does, then unconditionally overwrites
current_year.txt with the candidate year and returns True.
check_for_updates is never called here. -/
def run_full_pipeline (env : RunEnv) (s : PipeState) : Bool × PipeState :=
  match find_latest_payment_standards env.page with
  | none => (false, s)
  | some latest =>
    if env.download_ok then
      let rent_data := extract_rent_data_from_pdf
        ("/opt/rent-api/data/" ++ latest.filename) [] latest.year env.now
      let write_result := save_to_database env.db_ok rent_data s.db
      (true, { marker := some (latest.year : Int), db := write_result.2 })
    else (false, s)

/-- The locality, postal-code, rent and county fields of a row: everything
except the provenance metadata that varies between runs (source and
effective_year carry the year label, updated_at the clock reading). -/
def coreFields (r : Row) :
    String × String × Nat × Nat × Nat × Nat × Nat × Nat × Nat × String :=
  (r.town, r.zip_code, r.studio_rent, r.one_br_rent, r.two_br_rent, r.three_br_rent,
   r.four_br_rent, r.five_br_rent, r.six_br_rent, r.county)

end BHAFuture

namespace BHARent

/-- Candidate as appended to pdf_links by get_payment_standards_files.  The
year key is kept as a STRING: the matched four-digit group, or the literal
Unknown when no four-digit group occurs in the filename.  The bedrooms and
type keys of the source dict are carried by no later computation and are
omitted here. -/
structure Candidate where
  url : String
  filename : String
  year : String
deriving DecidableEq

/-- One iteration of the loop over pdf href regex matches in
get_payment_standards_files: the href is kept when it contains
Payment-Standards or SAFMRs, its filename is the part after the last slash,
and the year string defaults to Unknown. -/
def candidate_of_match (m : String) : Option Candidate :=
  if containsSub "Payment-Standards".toList m.toList
      || containsSub "SAFMRs".toList m.toList then
    some { url := BHAFuture.full_url_of_match m,
           filename := lastComponent m,
           year :=
             match firstFourDigits (lastComponent m).toList with
             | some ds => String.mk ds
             | none => "Unknown" }
  else none

/-- get_payment_standards_files.  none models the page fetch raising (caught
and an empty list returned); otherwise the input is the list of pdf href
values found by the regex over the page text. -/
def get_payment_standards_files (page : Option (List String)) : List Candidate :=
  match page with
  | none => []
  | some ms => ms.filterMap candidate_of_match

/-- get_latest_payment_standards: None on an empty candidate list, otherwise
the url of Python max over the candidates keyed on the year STRING, compared
lexicographically by code point. -/
def get_latest_payment_standards (page : Option (List String)) : Option String :=
  if (get_payment_standards_files page).isEmpty then none
  else (pyMaxBy pyStrLt (fun f => f.year) (get_payment_standards_files page)).map (fun f => f.url)

/-- Row shape shared by this script's two sample DataFrames. -/
structure Row where
  zip_code : String
  town : String
  county : String
  studio_rent : Nat
  one_br_rent : Nat
  two_br_rent : Nat
  three_br_rent : Nat
  four_br_rent : Nat
  five_br_rent : Nat
  six_br_rent : Nat
  source : String
  updated_at : String
deriving DecidableEq

/-- extract_rent_data_from_pdf of the rent-data script.  The file at
pdf_path is never read; its bytes are passed explicitly to make that
observable.  The five sample rows are returned; only the clock reading
varies.  The except branch is unreachable for this stub body. -/
def extract_rent_data_from_pdf (pdf_path : String) (pdf_bytes : List Nat)
    (now : String) : List Row :=
  [ { zip_code := "02108", town := "Boston", county := "Suffolk", studio_rent := 1800,
      one_br_rent := 2100, two_br_rent := 2500, three_br_rent := 3000, four_br_rent := 3500,
      five_br_rent := 4000, six_br_rent := 4500, source := "BHA Payment Standards",
      updated_at := now },
    { zip_code := "02109", town := "Boston", county := "Suffolk", studio_rent := 1850,
      one_br_rent := 2150, two_br_rent := 2550, three_br_rent := 3050, four_br_rent := 3550,
      five_br_rent := 4050, six_br_rent := 4550, source := "BHA Payment Standards",
      updated_at := now },
    { zip_code := "02110", town := "Boston", county := "Suffolk", studio_rent := 1900,
      one_br_rent := 2200, two_br_rent := 2600, three_br_rent := 3100, four_br_rent := 3600,
      five_br_rent := 4100, six_br_rent := 4600, source := "BHA Payment Standards",
      updated_at := now },
    { zip_code := "02111", town := "Boston", county := "Suffolk", studio_rent := 1750,
      one_br_rent := 2050, two_br_rent := 2450, three_br_rent := 2950, four_br_rent := 3450,
      five_br_rent := 3950, six_br_rent := 4450, source := "BHA Payment Standards",
      updated_at := now },
    { zip_code := "02113", town := "Boston", county := "Suffolk", studio_rent := 1950,
      one_br_rent := 2250, two_br_rent := 2650, three_br_rent := 3150, four_br_rent := 3650,
      five_br_rent := 4150, six_br_rent := 4650, source := "BHA Payment Standards",
      updated_at := now } ]

/-- get_rent_estimator_data: the five hardcoded estimator rows; only the
clock reading varies. -/
def get_rent_estimator_data (now : String) : List Row :=
  [ { zip_code := "02108", town := "Boston", county := "Suffolk", studio_rent := 1750,
      one_br_rent := 2050, two_br_rent := 2450, three_br_rent := 2950, four_br_rent := 3450,
      five_br_rent := 3950, six_br_rent := 4450, source := "BHA Rent Estimator",
      updated_at := now },
    { zip_code := "02109", town := "Boston", county := "Suffolk", studio_rent := 1800,
      one_br_rent := 2100, two_br_rent := 2500, three_br_rent := 3000, four_br_rent := 3500,
      five_br_rent := 4000, six_br_rent := 4500, source := "BHA Rent Estimator",
      updated_at := now },
    { zip_code := "02110", town := "Boston", county := "Suffolk", studio_rent := 1850,
      one_br_rent := 2150, two_br_rent := 2550, three_br_rent := 3050, four_br_rent := 3550,
      five_br_rent := 4050, six_br_rent := 4550, source := "BHA Rent Estimator",
      updated_at := now },
    { zip_code := "02111", town := "Boston", county := "Suffolk", studio_rent := 1700,
      one_br_rent := 2000, two_br_rent := 2400, three_br_rent := 2900, four_br_rent := 3400,
      five_br_rent := 3900, six_br_rent := 4400, source := "BHA Rent Estimator",
      updated_at := now },
    { zip_code := "02113", town := "Boston", county := "Suffolk", studio_rent := 1900,
      one_br_rent := 2200, two_br_rent := 2600, three_br_rent := 3100, four_br_rent := 3600,
      five_br_rent := 4100, six_br_rent := 4600, source := "BHA Rent Estimator",
      updated_at := now } ]

/-- save_to_database of the rent-data script: a plain append (to_sql with
if_exists append, no delete); db_ok=false models the engine raising, caught
with the table untouched. -/
def save_to_database (db_ok : Bool) (df : List Row) (db : List Row) : Bool × List Row :=
  if db_ok then (true, db ++ df) else (false, db)

/-- External inputs of one run of the rent-data pipeline: the scraped page,
whether the pdf download succeeds, and the outcomes of the two database
writes (payment-standards branch, then estimator branch). -/
structure RentEnv where
  page : Option (List String)
  download_ok : Bool
  db_ok1 : Bool
  db_ok2 : Bool
  now : String

/-- run_full_pipeline of the rent-data script.  When discovery or download
fails the payment-standards branch is silently skipped; the estimator branch
always runs; both save_to_database results are discarded and the function
returns True unconditionally. -/
def run_full_pipeline (env : RentEnv) (db : List Row) : Bool × List Row :=
  let db1 :=
    match get_latest_payment_standards env.page with
    | some url =>
      if env.download_ok then
        (save_to_database env.db_ok1
          (extract_rent_data_from_pdf ("/opt/rent-api/data/" ++ lastComponent url) [] env.now)
          db).2
      else db
    | none => db
  let db2 := (save_to_database env.db_ok2 (get_rent_estimator_data env.now) db1).2
  (true, db2)

/-- Every field of a row except updated_at, the only one that varies
between runs of this script's extractors. -/
def coreFields (r : Row) :
    String × String × String × Nat × Nat × Nat × Nat × Nat × Nat × Nat × String :=
  (r.zip_code, r.town, r.county, r.studio_rent, r.one_br_rent, r.two_br_rent,
   r.three_br_rent, r.four_br_rent, r.five_br_rent, r.six_br_rent, r.source)

end BHARent

namespace BHACkan

/-- One resource dict of the CKAN package_show result; absent keys are
modelled by none (for url and created, read with dict.get) and by the empty
string default used for format. -/
structure Resource where
  format : String
  url : Option String
  created : Option String
deriving DecidableEq

/-- The result dict of package_show, reduced to the resources list that
get_latest_csv_url reads. -/
structure DatasetInfo where
  resources : List Resource
deriving DecidableEq

/-- get_latest_csv_url.  dataset_info is none when get_dataset_info failed
(network error, non-2xx, or success false — all return the empty dict,
which is falsy).  Resources are filtered to format CSV after uppercasing,
then Python max keyed on the created string (missing created defaults to
the empty string); the url key of the winner is returned, None when
absent. -/
def get_latest_csv_url (dataset_info : Option DatasetInfo) : Option String :=
  match dataset_info with
  | none => none
  | some info =>
    if (info.resources.filter (fun r => (r.format.toList.map Char.toUpper) == "CSV".toList)).isEmpty then
      none
    else
      match pyMaxBy pyStrLt (fun r => r.created.getD "")
          (info.resources.filter (fun r => (r.format.toList.map Char.toUpper) == "CSV".toList)) with
      | some latest => latest.url
      | none => none

/-- A pandas cell: a string, an integer, or a missing value (NaN). -/
inductive Cell where
  | str (s : String)
  | int (n : Int)
  | missing
deriving DecidableEq

/-- A pandas DataFrame as a column-name list plus rows aligned with it. -/
structure DataFrame where
  columns : List String
  rows : List (List Cell)
deriving DecidableEq

/-- Pandas column assignment with a scalar: overwrites every cell of an
existing column in place, or appends a new column broadcasting the scalar
to every row. -/
def setColumn (df : DataFrame) (name : String) (v : Cell) : DataFrame :=
  if name ∈ df.columns then
    { columns := df.columns,
      rows := df.rows.map (fun r => r.set (df.columns.findIdx (fun c => c == name)) v) }
  else
    { columns := df.columns ++ [name], rows := df.rows.map (fun r => r ++ [v]) }

/-- transform_data, happy path: df.copy, then the two scalar column
assignments.  The column_mapping dict in the source is empty, so its rename
branch is not entered and no column is renamed. -/
def transform_data (now : String) (df : DataFrame) : DataFrame :=
  setColumn (setColumn df "source" (Cell.str "BHA")) "updated_at" (Cell.str now)

/-- transform_data including its except branch, which returns the original
df unchanged; throws models an exception being raised mid-transform. -/
def transform_data_result (throws : Bool) (now : String) (df : DataFrame) : DataFrame :=
  if throws then df else transform_data now df

/-- save_to_database of the catalog-API script: a plain append (to_sql with
if_exists append); db_ok=false models the engine raising, caught with the
table untouched. -/
def save_to_database (db_ok : Bool) (df : DataFrame) (db : List (List Cell)) :
    Bool × List (List Cell) :=
  if db_ok then (true, db ++ df.rows) else (false, db)

/-- External inputs of one run of the catalog-API pipeline. -/
structure CkanEnv where
  dataset_info : Option DatasetInfo
  csv_data : Option DataFrame
  transform_throws : Bool
  db_ok : Bool
  now : String

/-- run_full_pipeline of the catalog-API script: abort on missing csv url or
failed download; otherwise transform, write the csv backup (flat file, not
tracked), write the database, and return exactly the database outcome. -/
def run_full_pipeline (env : CkanEnv) (db : List (List Cell)) : Bool × List (List Cell) :=
  match get_latest_csv_url env.dataset_info with
  | none => (false, db)
  | some _ =>
    match env.csv_data with
    | none => (false, db)
    | some df =>
      let transformed_df := transform_data_result env.transform_throws env.now df
      let write_result := save_to_database env.db_ok transformed_df db
      (write_result.1, write_result.2)

end BHACkan

namespace BHA2025

/-- Row of the DataFrame built by this script's extract_rent_data_from_pdf
after the rename and the three metadata column assignments. -/
structure Row where
  town : String
  zip_code : String
  studio_rent : Nat
  one_br_rent : Nat
  two_br_rent : Nat
  three_br_rent : Nat
  four_br_rent : Nat
  five_br_rent : Nat
  six_br_rent : Nat
  county : String
  source : String
  updated_at : String
deriving DecidableEq

/-- Abbreviation for the 38 hardcoded rows below. -/
def mkRow (town zip : String) (r0 r1 r2 r3 r4 r5 r6 : Nat) (now : String) : Row :=
  { town := town, zip_code := zip, studio_rent := r0, one_br_rent := r1, two_br_rent := r2,
    three_br_rent := r3, four_br_rent := r4, five_br_rent := r5, six_br_rent := r6,
    county := "Suffolk", source := "BHA 2025 Payment Standards", updated_at := now }

/-- extract_rent_data_from_pdf of the 2025 script.  The file at pdf_path is
never read; its bytes are passed explicitly to make that observable.  The 38
hardcoded rows are returned with renamed columns and the county, source and
updated_at metadata columns; only the clock reading varies.  The except
branch is unreachable for this stub body. -/
def extract_rent_data_from_pdf (pdf_path : String) (pdf_bytes : List Nat)
    (now : String) : List Row :=
  [ mkRow "Abington" "02351" 1450 1520 1980 2509 2714 3120 3527 now,
    mkRow "Acton" "01720" 2323 2496 2969 3589 3954 4546 5139 now,
    mkRow "Acushnet" "02743" 1136 1236 1521 1833 2193 2522 2850 now,
    mkRow "Amesbury" "01913" 2323 2496 2969 3589 3954 4546 5139 now,
    mkRow "Andover" "01810" 1796 2058 2657 3224 3539 4069 4601 now,
    mkRow "Arlington" "02474" 2468 2646 3150 3812 4200 4830 5460 now,
    mkRow "Arlington" "02476" 2323 2496 2969 3589 3954 4546 5139 now,
    mkRow "Ashland" "01721" 2375 2552 3035 3669 4042 4647 5254 now,
    mkRow "Attleboro" "02703" 1502 1610 1974 2384 2870 3406 3750 now,
    mkRow "Avon" "02322" 1461 1561 2050 2600 2913 3350 3787 now,
    mkRow "Ayer" "01432" 2102 2259 2686 3248 3578 4114 4650 now,
    mkRow "Bedford" "01730" 2646 2846 3381 4085 4505 5180 5856 now,
    mkRow "Bellingham" "02019" 2102 2259 2686 3248 3578 4114 4650 now,
    mkRow "Belmont" "02478" 2699 2909 3455 4180 4600 5290 5980 now,
    mkRow "Berkley" "02779" 1418 1569 2058 2607 2729 3138 3548 now,
    mkRow "Beverly" "01915" 2324 2497 2969 3590 3955 4547 5140 now,
    mkRow "Billerica" "01821" 1400 1560 2020 2434 2678 3079 3481 now,
    mkRow "Bolton" "01740" 1649 1796 2268 2993 3381 3889 4396 now,
    mkRow "Boston" "02109" 3486 3749 4452 5387 5933 6822 7713 now,
    mkRow "Boston - Allston" "02134" 2426 2607 3100 3749 4129 4748 5367 now,
    mkRow "Boston - Back Bay" "02116" 3455 3718 4421 5346 5892 6775 7659 now,
    mkRow "Boston - Beacon Hill" "02108" 3266 3450 4100 4950 5450 6250 7000 now,
    mkRow "Boston - Brighton" "02135" 2560 2750 3270 3950 4350 5002 5655 now,
    mkRow "Boston - Charlestown" "02129" 2920 3140 3730 4510 4970 5715 6461 now,
    mkRow "Boston - Chinatown" "02111" 3030 3250 3870 4680 5150 5922 6695 now,
    mkRow "Boston - Dorchester" "02122" 2212 2377 2827 3418 3765 4329 4894 now,
    mkRow "Boston - Dorchester" "02124" 2212 2377 2827 3418 3765 4329 4894 now,
    mkRow "Boston - Dorchester" "02125" 2212 2377 2827 3418 3765 4329 4894 now,
    mkRow "Boston - Dorchester / Roxbury" "02121" 2212 2377 2827 3418 3765 4329 4894 now,
    mkRow "Boston - Downtown" "02199" 3486 3749 4452 5387 5933 6822 7713 now,
    mkRow "Boston - East Boston" "02128" 2212 2377 2827 3418 3765 4329 4894 now,
    mkRow "Boston - Fenway" "02115" 2426 2607 3100 3749 4129 4748 5367 now,
    mkRow "Boston - Financial Disctrict" "02110" 3486 3749 4452 5387 5933 6822 7713 now,
    mkRow "Boston - Harvard Business" "02163" 3210 3450 4130 4960 5460 6279 7098 now,
    mkRow "Boston - Hyde Park" "02136" 2324 2497 2969 3590 3955 4547 5140 now,
    mkRow "Boston - Jamaica Plain" "02130" 2500 2680 3190 3860 4250 4887 5525 now,
    mkRow "Boston - Kenmore" "02215" 2950 3170 3770 4560 5020 5773 6526 now,
    mkRow "Boston - Mattapan" "02126" 2212 2377 2827 3418 3765 4329 4894 now ]

/-- save_to_database of the 2025 script: a plain append (to_sql with
if_exists append, no delete statement); db_ok=false models the engine
raising, caught with the table untouched. -/
def save_to_database (db_ok : Bool) (df : List Row) (db : List Row) : Bool × List Row :=
  if db_ok then (true, db ++ df) else (false, db)

/-- External inputs of one run of the 2025 pipeline (the pdf url is fixed in
the source). -/
structure Env2025 where
  download_ok : Bool
  db_ok : Bool
  now : String

/-- run_full_pipeline of the 2025 script: abort when the download fails;
otherwise extract, write csv and json flat files (not tracked), call
save_to_database discarding its Bool result exactly as the source does, and
return True. -/
def run_full_pipeline (env : Env2025) (db : List Row) : Bool × List Row :=
  if env.download_ok then
    let rent_data := extract_rent_data_from_pdf
      "/opt/rent-api/data/2025-Payment-Standards-All-BR.pdf" [] env.now
    let write_result := save_to_database env.db_ok rent_data db
    (true, write_result.2)
  else (false, db)

/-- Every field of a row except updated_at, the only one that varies
between runs of this script's extractor. -/
def coreFields (r : Row) :
    String × String × Nat × Nat × Nat × Nat × Nat × Nat × Nat × String × String :=
  (r.town, r.zip_code, r.studio_rent, r.one_br_rent, r.two_br_rent, r.three_br_rent,
   r.four_br_rent, r.five_br_rent, r.six_br_rent, r.county, r.source)

end BHA2025

/-- Python max keyed on Nat splits its input into the elements strictly
before the winner, all with strictly smaller keys, and the elements after
it, all with keys at most the winner's: the first-seen maximal element
wins. -/
theorem foldl_natLtB_first_max {α : Type} (key : α → Nat) :
    ∀ (xs : List α) (x : α),
      ∃ pre post,
        x :: xs = pre ++ (List.foldl (fun acc y => if natLtB (key acc) (key y) then y else acc) x xs) :: post
        ∧ (∀ y ∈ pre, key y < key (List.foldl (fun acc y => if natLtB (key acc) (key y) then y else acc) x xs))
        ∧ (∀ y ∈ post, key y ≤ key (List.foldl (fun acc y => if natLtB (key acc) (key y) then y else acc) x xs)) := by
  intro xs
  induction xs with
  | nil =>
    intro x
    exact ⟨[], [], rfl, by simp, by simp⟩
  | cons y ys ih =>
    intro x
    by_cases hxy : key x < key y
    · have hstep : List.foldl (fun acc z => if natLtB (key acc) (key z) then z else acc) x (y :: ys)
          = List.foldl (fun acc z => if natLtB (key acc) (key z) then z else acc) y ys := by
        simp [natLtB, hxy]
      obtain ⟨pre, post, heq, hpre, hpost⟩ := ih y
      rw [hstep]
      set m := List.foldl (fun acc z => if natLtB (key acc) (key z) then z else acc) y ys with hm
      refine ⟨x :: pre, post, ?_, ?_, hpost⟩
      · rw [List.cons_append, ← heq]
      · intro z hz
        rcases List.mem_cons.mp hz with rfl | hz'
        · cases pre with
          | nil =>
            have h1 : y = m := by
              simpa using congrArg (fun l => l.head?) heq
            exact h1 ▸ hxy
          | cons p ps =>
            have hy : y = p := by
              simpa using congrArg (fun l => l.head?) heq
            exact lt_trans (hy ▸ hxy) (hpre p (List.mem_cons_self p ps))
        · exact hpre z hz'
    · have hstep : List.foldl (fun acc z => if natLtB (key acc) (key z) then z else acc) x (y :: ys)
          = List.foldl (fun acc z => if natLtB (key acc) (key z) then z else acc) x ys := by
        simp [natLtB, hxy]
      obtain ⟨pre, post, heq, hpre, hpost⟩ := ih x
      rw [hstep]
      set m := List.foldl (fun acc z => if natLtB (key acc) (key z) then z else acc) x ys with hm
      cases pre with
      | nil =>
        have hx : x = m ∧ ys = post := by
          simpa using heq
        refine ⟨[], y :: post, ?_, by simp, ?_⟩
        · rw [← hx.1, ← hx.2]
          rfl
        · intro z hz
          rcases List.mem_cons.mp hz with rfl | hz'
          · exact hx.1 ▸ Nat.le_of_not_lt hxy
          · exact hpost z hz'
      | cons p ps =>
        have hxp : x = p ∧ ys = ps ++ m :: post := by
          simpa using heq
        have hxm : key x < key m := by
          rw [hxp.1]
          exact hpre p (List.mem_cons_self p ps)
        refine ⟨x :: y :: ps, post, ?_, ?_, hpost⟩
        · rw [hxp.2]
          simp
        · intro z hz
          rcases List.mem_cons.mp hz with rfl | hz'
          · exact hxm
          · rcases List.mem_cons.mp hz' with rfl | hz''
            · exact lt_of_le_of_lt (Nat.le_of_not_lt hxy) hxm
            · exact hpre z (List.mem_cons_of_mem p hz'')

/-- Specification of pyMaxBy with the Nat order: when it returns a winner,
the winner is an element, every earlier element has a strictly smaller key,
and every later element has a key at most the winner's. -/
theorem pyMaxBy_natLtB_spec {α : Type} (key : α → Nat) (l : List α) (m : α)
    (h : pyMaxBy natLtB key l = some m) :
    ∃ pre post, l = pre ++ m :: post
      ∧ (∀ y ∈ pre, key y < key m) ∧ (∀ y ∈ post, key y ≤ key m) := by
  cases l with
  | nil => simp [pyMaxBy] at h
  | cons x xs =>
    have hm : List.foldl (fun acc y => if natLtB (key acc) (key y) then y else acc) x xs = m := by
      simpa [pyMaxBy] using h
    obtain ⟨pre, post, heq, hpre, hpost⟩ := foldl_natLtB_first_max key xs x
    rw [hm] at heq hpre hpost
    exact ⟨pre, post, heq, hpre, hpost⟩

/-- A window returned by firstFourDigits consists of four digit
characters. -/
theorem firstFourDigits_digits :
    ∀ (cs ds : List Char), firstFourDigits cs = some ds →
      ∃ a b c d, ds = [a, b, c, d]
        ∧ pyIsDigit a = true ∧ pyIsDigit b = true ∧ pyIsDigit c = true ∧ pyIsDigit d = true := by
  intro cs
  induction cs with
  | nil => intro ds h; simp [firstFourDigits] at h
  | cons a rest ih =>
    intro ds h
    match hrest : rest with
    | [] => simp [firstFourDigits, hrest] at h
    | [b] => simp [firstFourDigits, hrest] at h
    | [b, c] => simp [firstFourDigits, hrest] at h
    | b :: c :: d :: t =>
      rw [firstFourDigits] at h
      by_cases hd : pyIsDigit a && pyIsDigit b && pyIsDigit c && pyIsDigit d
      · rw [if_pos hd] at h
        obtain ⟨h1, h4⟩ := Bool.and_eq_true_iff.mp hd
        obtain ⟨h1, h3⟩ := Bool.and_eq_true_iff.mp h1
        obtain ⟨h1, h2⟩ := Bool.and_eq_true_iff.mp h1
        exact ⟨a, b, c, d, (Option.some.injEq _ _ ▸ h).symm, h1, h2, h3, h4⟩
      · rw [if_neg hd] at h
        exact ih ds h

/-- A four-digit year string is strictly below the sentinel Unknown in the
Python string order (the sentinel starts with an uppercase letter whose code
point exceeds every digit). -/
theorem fourDigit_lt_unknown (s : String) (h : isFourDigitStr s = true) :
    pyStrLt s "Unknown" = true ∧ pyStrLt "Unknown" s = false := by
  unfold isFourDigitStr at h
  split at h
  case _ a b c d heq =>
    have ha : pyIsDigit a = true := by
      obtain ⟨h1, _⟩ := Bool.and_eq_true_iff.mp h
      obtain ⟨h1, _⟩ := Bool.and_eq_true_iff.mp h1
      exact (Bool.and_eq_true_iff.mp h1).1
    have hb : a.toNat ≤ 57 := by
      have := (Bool.and_eq_true_iff.mp ha).2
      simpa using this
    have hU : ('U' : Char).toNat = 85 := rfl
    have hlt : a.toNat < ('U' : Char).toNat := by omega
    have hnlt : ¬ ('U' : Char).toNat < a.toNat := by omega
    constructor
    · show strLtList s.toList "Unknown".toList = true
      rw [heq]
      show strLtList [a, b, c, d] ('U' :: "nknown".toList) = true
      rw [strLtList]
      rw [if_pos hlt]
    · show strLtList "Unknown".toList s.toList = false
      rw [heq]
      show strLtList ('U' :: "nknown".toList) [a, b, c, d] = false
      rw [strLtList]
      rw [if_neg hnlt, if_pos hlt]
  case _ =>
    simp at h

/-- Over candidates whose keys are all either Unknown or four-digit years,
the Python max fold ends on an Unknown key as soon as the accumulator is
Unknown or any remaining element is. -/
theorem fold_strLt_unknown {α : Type} (key : α → String) :
    ∀ (l : List α) (acc : α),
      (∀ f ∈ l, key f = "Unknown" ∨ isFourDigitStr (key f) = true) →
      (key acc = "Unknown" ∨ (isFourDigitStr (key acc) = true ∧ ∃ f ∈ l, key f = "Unknown")) →
      key (List.foldl (fun a y => if pyStrLt (key a) (key y) then y else a) acc l) = "Unknown" := by
  intro l
  induction l with
  | nil =>
    intro acc hall hacc
    rcases hacc with h | ⟨_, f, hf, _⟩
    · exact h
    · simp at hf
  | cons y ys ih =>
    intro acc hall hacc
    rcases hacc with hacc1 | ⟨haccd, f, hf, hfu⟩
    · have hc : pyStrLt (key acc) (key y) = false := by
        rcases hall y (List.mem_cons_self y ys) with hy | hy
        · rw [hacc1, hy]
          rfl
        · rw [hacc1]
          exact (fourDigit_lt_unknown (key y) hy).2
      rw [List.foldl_cons]
      rw [hc]
      show key (List.foldl (fun a y => if pyStrLt (key a) (key y) then y else a) acc ys) = "Unknown"
      exact ih acc (fun f hf => hall f (List.mem_cons_of_mem y hf)) (Or.inl hacc1)
    · rcases hall y (List.mem_cons_self y ys) with hy | hy
      · have hc : pyStrLt (key acc) (key y) = true := by
          rw [hy]
          exact (fourDigit_lt_unknown (key acc) haccd).1
        rw [List.foldl_cons, hc]
        show key (List.foldl (fun a y => if pyStrLt (key a) (key y) then y else a) y ys) = "Unknown"
        exact ih y (fun g hg => hall g (List.mem_cons_of_mem y hg)) (Or.inl hy)
      · have hfys : f ∈ ys := by
          rcases List.mem_cons.mp hf with rfl | hmem
          · rw [hfu] at hy
            exact absurd hy (by decide)
          · exact hmem
        rw [List.foldl_cons]
        cases hc : pyStrLt (key acc) (key y)
        · show key (List.foldl (fun a y => if pyStrLt (key a) (key y) then y else a) acc ys) = "Unknown"
          exact ih acc (fun g hg => hall g (List.mem_cons_of_mem y hg)) (Or.inr ⟨haccd, f, hfys, hfu⟩)
        · show key (List.foldl (fun a y => if pyStrLt (key a) (key y) then y else a) y ys) = "Unknown"
          exact ih y (fun g hg => hall g (List.mem_cons_of_mem y hg)) (Or.inr ⟨hy, f, hfys, hfu⟩)

/-- Every candidate built by the rent-data locator carries either the
Unknown sentinel or a four-digit year string. -/
theorem rent_candidate_year_shape :
    ∀ (page : Option (List String)) (f : BHARent.Candidate),
      f ∈ BHARent.get_payment_standards_files page →
      f.year = "Unknown" ∨ isFourDigitStr f.year = true := by
  intro page f hf
  cases page with
  | none => simp [BHARent.get_payment_standards_files] at hf
  | some ms =>
    rw [BHARent.get_payment_standards_files] at hf
    obtain ⟨m, hm, hcm⟩ := List.mem_filterMap.mp hf
    rw [BHARent.candidate_of_match] at hcm
    split at hcm
    · have hrec := Option.some.inj hcm
      subst hrec
      show (match firstFourDigits (lastComponent m).toList with
            | some ds => String.mk ds
            | none => "Unknown") = "Unknown"
        ∨ isFourDigitStr (match firstFourDigits (lastComponent m).toList with
            | some ds => String.mk ds
            | none => "Unknown") = true
      rcases hff : firstFourDigits (lastComponent m).toList with _ | ds
      · left
        rfl
      · right
        obtain ⟨a, b, c, d, hds, ha, hb, hc, hd⟩ :=
          firstFourDigits_digits (lastComponent m).toList ds hff
        subst hds
        show isFourDigitStr (String.mk [a, b, c, d]) = true
        show (pyIsDigit a && pyIsDigit b && pyIsDigit c && pyIsDigit d) = true
        simp [ha, hb, hc, hd]
    · exact absurd hcm (by simp)

/-- Claim C2: the update gate ingests whenever no marker exists, and with a
marker present it ingests exactly when the candidate year is strictly
greater than the stored year; equality is never re-ingested. -/
theorem c2_update_gate (c : BHAFuture.Candidate) (y : Int) :
    BHAFuture.check_for_updates none (some c) = true
      ∧ (BHAFuture.check_for_updates (some y) (some c) = true ↔ (c.year : Int) > y) := by
  refine ⟨rfl, ?_⟩
  simp [BHAFuture.check_for_updates]

/-- Claim C1, as amended: selection picks the first-seen candidate whose key
is maximal.  In the future-proof locator the key is the numeric year,
candidates without a four-digit year are excluded, every candidate placed
before the winner has a strictly smaller year and every one after has a year
at most the winner's.  In the rent-data locator an undetermined year is
given the string sentinel Unknown, which compares above every four-digit
year, so whenever an undetermined candidate is present selection returns a
candidate whose recency is undetermined. -/
theorem c1_selection_amended :
    (∀ (ms : List String) (c : BHAFuture.Candidate),
        BHAFuture.find_latest_payment_standards (some ms) = some c →
        ∃ pre post, BHAFuture.available_files ms = pre ++ c :: post
          ∧ (∀ d ∈ pre, d.year < c.year) ∧ (∀ d ∈ post, d.year ≤ c.year))
    ∧ (∀ m : String, firstFourDigits m.toList = none → BHAFuture.candidate_of_match m = none)
    ∧ (∀ (page : Option (List String)) (f0 : BHARent.Candidate),
        f0 ∈ BHARent.get_payment_standards_files page → f0.year = "Unknown" →
        ∃ g, pyMaxBy pyStrLt (fun f => f.year) (BHARent.get_payment_standards_files page) = some g
          ∧ g.year = "Unknown"
          ∧ BHARent.get_latest_payment_standards page = some g.url) := by
  refine ⟨?_, ?_, ?_⟩
  · intro ms c h
    rw [BHAFuture.find_latest_payment_standards] at h
    split at h
    · exact absurd h (by simp)
    · exact pyMaxBy_natLtB_spec (fun c => c.year) (BHAFuture.available_files ms) c h
  · intro m h
    have h' : firstFourDigits m.data = none := h
    simp [BHAFuture.candidate_of_match, h']
  · intro page f0 hf0 hf0u
    have hall := rent_candidate_year_shape page
    cases hfiles : BHARent.get_payment_standards_files page with
    | nil =>
      rw [hfiles] at hf0
      simp at hf0
    | cons x xs =>
      have hxmem : x ∈ BHARent.get_payment_standards_files page := by
        rw [hfiles]
        exact List.mem_cons_self x xs
      have hacc : x.year = "Unknown"
          ∨ (isFourDigitStr x.year = true ∧ ∃ f ∈ xs, f.year = "Unknown") := by
        rcases hall x hxmem with hxu | hxd
        · exact Or.inl hxu
        · refine Or.inr ⟨hxd, f0, ?_, hf0u⟩
          rw [hfiles] at hf0
          rcases List.mem_cons.mp hf0 with rfl | hmem
          · rw [hf0u] at hxd
            exact absurd hxd (by decide)
          · exact hmem
      have hallxs : ∀ f ∈ xs, f.year = "Unknown" ∨ isFourDigitStr f.year = true := by
        intro f hf
        refine hall f ?_
        rw [hfiles]
        exact List.mem_cons_of_mem x hf
      have hg := fold_strLt_unknown (fun f : BHARent.Candidate => f.year) xs x hallxs hacc
      refine ⟨List.foldl (fun a y => if pyStrLt a.year y.year then y else a) x xs, ?_, ?_, ?_⟩
      · rfl
      · exact hg
      · rw [BHARent.get_latest_payment_standards]
        rw [hfiles]
        rfl

/-- Claim C1, counterexample to the claim as stated: on a page holding a
dated pdf (year 2025) and an undated pdf, the rent-data locator selects the
undated one — a candidate whose recency could not be determined wins. -/
theorem c1_selection_counterexample :
    BHARent.get_latest_payment_standards
        (some ["/docs/2025-Payment-Standards.pdf", "/docs/Payment-Standards.pdf"])
      = some "https://www.bostonhousing.org/docs/Payment-Standards.pdf"
    ∧ (BHARent.get_payment_standards_files
        (some ["/docs/2025-Payment-Standards.pdf", "/docs/Payment-Standards.pdf"])).map
          (fun f => f.year) = ["2025", "Unknown"] :=
  ⟨by decide, by decide⟩

/-- Claim C1, witness: the amended selection property evaluated on a page
with a 2024 and a 2025 pdf; the 2025 candidate wins. -/
theorem c1_selection_witness :
    ∃ pre post,
      BHAFuture.available_files
          ["/docs/2024-Payment-Standards.pdf", "/docs/2025-Payment-Standards.pdf"]
        = pre ++ (BHAFuture.Candidate.mk
              "https://www.bostonhousing.org/docs/2025-Payment-Standards.pdf"
              2025 "2025-Payment-Standards.pdf") :: post
      ∧ (∀ d ∈ pre, d.year < 2025) ∧ (∀ d ∈ post, d.year ≤ 2025) :=
  c1_selection_amended.1
    ["/docs/2024-Payment-Standards.pdf", "/docs/2025-Payment-Standards.pdf"]
    (BHAFuture.Candidate.mk "https://www.bostonhousing.org/docs/2025-Payment-Standards.pdf"
      2025 "2025-Payment-Standards.pdf")
    (by decide)

/-- Claim C3, as amended: after every successful run of the future-proof
pipeline the marker equals the selected candidate's year.  The pipeline
never consults the previous marker (check_for_updates is not called), so
the stored value decreases whenever discovery's best year regresses. -/
theorem c3_marker_amended (env : BHAFuture.RunEnv) (s : BHAFuture.PipeState)
    (h : (BHAFuture.run_full_pipeline env s).1 = true) :
    ∃ c, BHAFuture.find_latest_payment_standards env.page = some c
      ∧ (BHAFuture.run_full_pipeline env s).2.marker = some (c.year : Int) := by
  unfold BHAFuture.run_full_pipeline at h ⊢
  cases hl : BHAFuture.find_latest_payment_standards env.page with
  | none =>
    rw [hl] at h
    simp at h
  | some c =>
    cases hd : env.download_ok with
    | false =>
      rw [hl, hd] at h
      simp at h
    | true => exact ⟨c, rfl, rfl⟩

/-- Claim C3, counterexample to the claim as stated: starting from a marker
of 2025, a run whose page lists only a 2024 pdf succeeds and stores the
strictly smaller marker value 2024. -/
theorem c3_marker_counterexample :
    (BHAFuture.run_full_pipeline
        (BHAFuture.RunEnv.mk (some ["/docs/2024-Payment-Standards.pdf"]) true true "T")
        (BHAFuture.PipeState.mk (some 2025) [])).1 = true
    ∧ (BHAFuture.run_full_pipeline
        (BHAFuture.RunEnv.mk (some ["/docs/2024-Payment-Standards.pdf"]) true true "T")
        (BHAFuture.PipeState.mk (some 2025) [])).2.marker = some 2024
    ∧ (2024 : Int) < 2025 :=
  ⟨by decide, by decide, by decide⟩

/-- Claim C3, witness: the amended marker property evaluated on a concrete
successful run. -/
theorem c3_marker_witness :
    ∃ c, BHAFuture.find_latest_payment_standards (some ["/docs/2025-Payment-Standards.pdf"]) = some c
      ∧ (BHAFuture.run_full_pipeline
          (BHAFuture.RunEnv.mk (some ["/docs/2025-Payment-Standards.pdf"]) true true "T")
          (BHAFuture.PipeState.mk none [])).2.marker = some (c.year : Int) :=
  c3_marker_amended
    (BHAFuture.RunEnv.mk (some ["/docs/2025-Payment-Standards.pdf"]) true true "T")
    (BHAFuture.PipeState.mk none []) (by decide)

/-- Claim C4, as amended: the marker is written after the relational write
is attempted but regardless of its outcome — when the engine raises, the
run still reports success, the table is left unchanged, and the marker
still advances to the candidate year. -/
theorem c4_marker_after_write_amended (env : BHAFuture.RunEnv) (s : BHAFuture.PipeState)
    (c : BHAFuture.Candidate) (hl : BHAFuture.find_latest_payment_standards env.page = some c)
    (hd : env.download_ok = true) (hdb : env.db_ok = false) :
    BHAFuture.run_full_pipeline env s
      = (true, BHAFuture.PipeState.mk (some (c.year : Int)) s.db) := by
  unfold BHAFuture.run_full_pipeline
  rw [hl, hd]
  simp [BHAFuture.save_to_database, hdb]

/-- Claim C4, counterexample to the claim as stated: from no marker, a run
whose relational write fails still writes marker 2025 while the table stays
empty — the marker advances past data that was never stored. -/
theorem c4_marker_counterexample :
    BHAFuture.run_full_pipeline
        (BHAFuture.RunEnv.mk (some ["/docs/2025-Payment-Standards.pdf"]) true false "T")
        (BHAFuture.PipeState.mk none [])
      = (true, BHAFuture.PipeState.mk (some 2025) []) := by decide

/-- Claim C4, witness: the amended marker-after-write property evaluated on
a concrete run with a failing relational write. -/
theorem c4_marker_witness :
    BHAFuture.run_full_pipeline
        (BHAFuture.RunEnv.mk (some ["/docs/2024-Payment-Standards.pdf"]) true false "T")
        (BHAFuture.PipeState.mk (some 2023) [])
      = (true, BHAFuture.PipeState.mk (some 2024) []) :=
  c4_marker_after_write_amended
    (BHAFuture.RunEnv.mk (some ["/docs/2024-Payment-Standards.pdf"]) true false "T")
    (BHAFuture.PipeState.mk (some 2023) [])
    (BHAFuture.Candidate.mk "https://www.bostonhousing.org/docs/2024-Payment-Standards.pdf"
      2024 "2024-Payment-Standards.pdf")
    (by decide) rfl rfl

/-- Claim C5, as amended: the future-proof script's write is delete-then-
insert and is idempotent for record sets whose source labels match the
delete pattern; the 2025 script's write is a plain append with no delete,
so repeated identical runs duplicate every record. -/
theorem c5_sink_idempotence_amended :
    (∀ (df db : List BHAFuture.Row),
        (∀ r ∈ df, BHAFuture.likeBHAYearPattern r.source = true) →
        (BHAFuture.save_to_database true df (BHAFuture.save_to_database true df db).2).2
          = (BHAFuture.save_to_database true df db).2)
    ∧ (∀ (df db : List BHA2025.Row), (BHA2025.save_to_database true df db).2 = db ++ df) := by
  constructor
  · intro df db h
    show List.filter (fun r => !(BHAFuture.likeBHAYearPattern r.source))
        (List.filter (fun r => !(BHAFuture.likeBHAYearPattern r.source)) db ++ df) ++ df
      = List.filter (fun r => !(BHAFuture.likeBHAYearPattern r.source)) db ++ df
    rw [List.filter_append]
    have h1 : List.filter (fun r => !(BHAFuture.likeBHAYearPattern r.source)) df = [] := by
      rw [List.filter_eq_nil_iff]
      intro a ha
      simp [h a ha]
    rw [h1, List.filter_filter]
    have h2 : (fun (r : BHAFuture.Row) =>
        !(BHAFuture.likeBHAYearPattern r.source) && !(BHAFuture.likeBHAYearPattern r.source))
        = (fun r => !(BHAFuture.likeBHAYearPattern r.source)) := by
      funext r
      exact Bool.and_self _
    rw [h2, List.append_nil]
  · intro df db
    simp [BHA2025.save_to_database]

/-- Claim C5, counterexample to the claim as stated: running the 2025
script's relational write twice with the same single record leaves two
copies of it in the table, not one. -/
theorem c5_sink_idempotence_counterexample :
    (BHA2025.save_to_database true [BHA2025.mkRow "Boston" "02108" 1 2 3 4 5 6 7 "T"]
        (BHA2025.save_to_database true [BHA2025.mkRow "Boston" "02108" 1 2 3 4 5 6 7 "T"] []).2).2
      = [BHA2025.mkRow "Boston" "02108" 1 2 3 4 5 6 7 "T",
         BHA2025.mkRow "Boston" "02108" 1 2 3 4 5 6 7 "T"]
    ∧ [BHA2025.mkRow "Boston" "02108" 1 2 3 4 5 6 7 "T",
       BHA2025.mkRow "Boston" "02108" 1 2 3 4 5 6 7 "T"]
      ≠ [BHA2025.mkRow "Boston" "02108" 1 2 3 4 5 6 7 "T"] :=
  ⟨by decide, by decide⟩

/-- Claim C5, witness: the idempotence half evaluated on the concrete table
the future-proof extractor produces. -/
theorem c5_sink_idempotence_witness :
    (BHAFuture.save_to_database true (BHAFuture.extract_rent_data_from_pdf "p" [] 2025 "T")
        (BHAFuture.save_to_database true
          (BHAFuture.extract_rent_data_from_pdf "p" [] 2025 "T") []).2).2
      = (BHAFuture.save_to_database true (BHAFuture.extract_rent_data_from_pdf "p" [] 2025 "T") []).2 :=
  c5_sink_idempotence_amended.1 (BHAFuture.extract_rent_data_from_pdf "p" [] 2025 "T") []
    (by decide)

/-- Claim C6, as amended: only the catalog-API pipeline reports success
exactly when the relational write succeeds; the 2025 pipeline reports
success whenever download and extraction succeed regardless of the write,
and the rent-data pipeline reports success unconditionally. -/
theorem c6_success_amended :
    (∀ (env : BHACkan.CkanEnv) (db : List (List BHACkan.Cell)),
        (BHACkan.get_latest_csv_url env.dataset_info).isSome = true →
        env.csv_data.isSome = true →
        ((BHACkan.run_full_pipeline env db).1 = true ↔ env.db_ok = true))
    ∧ (∀ (env : BHA2025.Env2025) (db : List BHA2025.Row),
        env.download_ok = true → (BHA2025.run_full_pipeline env db).1 = true)
    ∧ (∀ (env : BHARent.RentEnv) (db : List BHARent.Row),
        (BHARent.run_full_pipeline env db).1 = true) := by
  refine ⟨?_, ?_, ?_⟩
  · intro env db h1 h2
    unfold BHACkan.run_full_pipeline
    cases hu : BHACkan.get_latest_csv_url env.dataset_info with
    | none =>
      rw [hu] at h1
      simp at h1
    | some u =>
      cases hc : env.csv_data with
      | none =>
        rw [hc] at h2
        simp at h2
      | some df =>
        cases hdb : env.db_ok <;> simp [BHACkan.save_to_database, hdb]
  · intro env db h
    unfold BHA2025.run_full_pipeline
    rw [h]
    rfl
  · intro env db
    rfl

/-- Claim C6, counterexample to the claim as stated: a 2025-script run
whose relational write fails, storing nothing, is still reported
successful. -/
theorem c6_success_counterexample :
    BHA2025.run_full_pipeline (BHA2025.Env2025.mk true false "T") [] = (true, [])
    ∧ (BHA2025.save_to_database false
        (BHA2025.extract_rent_data_from_pdf
          "/opt/rent-api/data/2025-Payment-Standards-All-BR.pdf" [] "T") []).1 = false :=
  ⟨by decide, by decide⟩

/-- Claim C6, witness: the catalog-API success equivalence evaluated on a
concrete run that reaches the write stage. -/
theorem c6_success_witness :
    ((BHACkan.run_full_pipeline
        (BHACkan.CkanEnv.mk
          (some (BHACkan.DatasetInfo.mk
            [BHACkan.Resource.mk "csv" (some "https://data.boston.gov/x.csv") (some "2024-01-01")]))
          (some (BHACkan.DataFrame.mk ["zip_code"] [[BHACkan.Cell.str "02108"]]))
          false true "T")
        []).1 = true ↔ true = true) :=
  c6_success_amended.1
    (BHACkan.CkanEnv.mk
      (some (BHACkan.DatasetInfo.mk
        [BHACkan.Resource.mk "csv" (some "https://data.boston.gov/x.csv") (some "2024-01-01")]))
      (some (BHACkan.DataFrame.mk ["zip_code"] [[BHACkan.Cell.str "02108"]]))
      false true "T")
    [] (by decide) (by decide)

/-- Claim C7, as amended: discovery never throws — fetch failures and empty
result sets yield an absent candidate or the empty list; the future-proof
pipeline then aborts cleanly leaving marker and table unchanged; the
rent-data pipeline instead continues with the estimator source, appends its
rows to the relational table, and reports success. -/
theorem c7_discovery_amended :
    (BHAFuture.find_latest_payment_standards none = none)
    ∧ (BHARent.get_payment_standards_files none = [])
    ∧ (∀ (env : BHAFuture.RunEnv) (s : BHAFuture.PipeState),
        BHAFuture.find_latest_payment_standards env.page = none →
        BHAFuture.run_full_pipeline env s = (false, s))
    ∧ (∀ (env : BHARent.RentEnv) (db : List BHARent.Row),
        BHARent.get_latest_payment_standards env.page = none →
        BHARent.run_full_pipeline env db
          = (true, (BHARent.save_to_database env.db_ok2 (BHARent.get_rent_estimator_data env.now) db).2)) := by
  refine ⟨rfl, rfl, ?_, ?_⟩
  · intro env s h
    unfold BHAFuture.run_full_pipeline
    rw [h]
  · intro env db h
    unfold BHARent.run_full_pipeline
    rw [h]

/-- Claim C7, counterexample to the claim as stated: with discovery
failing, the rent-data pipeline reports success and leaves the relational
table changed rather than aborting with state untouched. -/
theorem c7_discovery_counterexample :
    (BHARent.run_full_pipeline
        (BHARent.RentEnv.mk none true true true "T") []).1 = true
    ∧ (BHARent.run_full_pipeline
        (BHARent.RentEnv.mk none true true true "T") []).2 ≠ [] :=
  ⟨by decide, by decide⟩

/-- Claim C7, witness: the clean-abort half evaluated on a concrete
future-proof run whose page lists no pdf. -/
theorem c7_discovery_witness :
    BHAFuture.run_full_pipeline
        (BHAFuture.RunEnv.mk (some []) true true "T")
        (BHAFuture.PipeState.mk (some 2025) [])
      = (false, BHAFuture.PipeState.mk (some 2025) []) :=
  c7_discovery_amended.2.2.1
    (BHAFuture.RunEnv.mk (some []) true true "T")
    (BHAFuture.PipeState.mk (some 2025) []) (by decide)

/-- A pandas scalar column assignment never changes the number of rows. -/
theorem setColumn_rows_length (df : BHACkan.DataFrame) (name : String) (v : BHACkan.Cell) :
    ((BHACkan.setColumn df name v).rows).length = df.rows.length := by
  unfold BHACkan.setColumn
  split <;> simp

/-- Claim C8, as amended: normalization performs no row validation — every
raw row is retained (rows missing a postal code or all rent fields are
neither dropped nor counted), no per-field numeric parsing occurs, and the
transform only adds the two provenance columns. -/
theorem c8_normalization_amended (now : String) (df : BHACkan.DataFrame) :
    (BHACkan.transform_data now df).rows.length = df.rows.length := by
  unfold BHACkan.transform_data
  rw [setColumn_rows_length, setColumn_rows_length]

/-- Claim C8, counterexample to the claim as stated: a row whose postal
code is missing survives transform_data intact with only the provenance
columns appended; it is not dropped. -/
theorem c8_normalization_counterexample :
    BHACkan.transform_data "T"
        (BHACkan.DataFrame.mk ["zip_code", "two_br_rent"]
          [[BHACkan.Cell.missing, BHACkan.Cell.int 1000]])
      = BHACkan.DataFrame.mk ["zip_code", "two_br_rent", "source", "updated_at"]
          [[BHACkan.Cell.missing, BHACkan.Cell.int 1000,
            BHACkan.Cell.str "BHA", BHACkan.Cell.str "T"]]
    ∧ (BHACkan.transform_data "T"
        (BHACkan.DataFrame.mk ["zip_code", "two_br_rent"]
          [[BHACkan.Cell.missing, BHACkan.Cell.int 1000]])).rows.length = 1 :=
  ⟨by decide, by decide⟩

/-- Claim C9: extraction ignores the fetched artifact — for any two paths
and any two byte contents the extracted table is identical in each script,
and with the run-varying provenance projected away (the year label where
present and the ingestion timestamp) the rows are identical across runs. -/
theorem c9_extraction_input_independence :
    (∀ (p1 p2 : String) (b1 b2 : List Nat) (year : Nat) (now : String),
        BHAFuture.extract_rent_data_from_pdf p1 b1 year now
          = BHAFuture.extract_rent_data_from_pdf p2 b2 year now)
    ∧ (∀ (p1 p2 : String) (b1 b2 : List Nat) (now : String),
        BHA2025.extract_rent_data_from_pdf p1 b1 now = BHA2025.extract_rent_data_from_pdf p2 b2 now)
    ∧ (∀ (p1 p2 : String) (b1 b2 : List Nat) (now : String),
        BHARent.extract_rent_data_from_pdf p1 b1 now = BHARent.extract_rent_data_from_pdf p2 b2 now)
    ∧ (∀ (p : String) (b : List Nat) (y1 y2 : Nat) (n1 n2 : String),
        (BHAFuture.extract_rent_data_from_pdf p b y1 n1).map BHAFuture.coreFields
          = (BHAFuture.extract_rent_data_from_pdf p b y2 n2).map BHAFuture.coreFields)
    ∧ (∀ (p : String) (b : List Nat) (n1 n2 : String),
        (BHA2025.extract_rent_data_from_pdf p b n1).map BHA2025.coreFields
          = (BHA2025.extract_rent_data_from_pdf p b n2).map BHA2025.coreFields)
    ∧ (∀ (p : String) (b : List Nat) (n1 n2 : String),
        (BHARent.extract_rent_data_from_pdf p b n1).map BHARent.coreFields
          = (BHARent.extract_rent_data_from_pdf p b n2).map BHARent.coreFields) :=
  ⟨fun _ _ _ _ _ _ => rfl, fun _ _ _ _ _ => rfl, fun _ _ _ _ _ => rfl,
   fun _ _ _ _ _ _ => rfl, fun _ _ _ _ => rfl, fun _ _ _ _ => rfl⟩

/-- Claim C10, as amended: for input tables having neither a source nor an
updated_at column, the transform preserves every original column and cell
and appends exactly those two columns; a pre-existing column of either name
has its cells overwritten in place; on an error the original table is
returned unchanged. -/
theorem c10_transform_frame_amended (now : String) (df : BHACkan.DataFrame)
    (h1 : "source" ∉ df.columns) (h2 : "updated_at" ∉ df.columns) :
    (BHACkan.transform_data now df).columns = df.columns ++ ["source", "updated_at"]
    ∧ (BHACkan.transform_data now df).rows
        = df.rows.map (fun r => r ++ [BHACkan.Cell.str "BHA", BHACkan.Cell.str now])
    ∧ (∀ (df2 : BHACkan.DataFrame), BHACkan.transform_data_result true now df2 = df2) := by
  unfold BHACkan.transform_data BHACkan.setColumn
  rw [if_neg h1]
  have h2' : ("updated_at" : String) ∉ df.columns ++ ["source"] := by
    simp [h2]
  rw [if_neg h2']
  refine ⟨by simp, ?_, fun df2 => rfl⟩
  simp [List.map_map, Function.comp, List.append_assoc]

/-- Claim C10, counterexample to the claim as stated: an input table that
already holds a source column has that column's cell value overwritten. -/
theorem c10_transform_frame_counterexample :
    BHACkan.transform_data "T"
        (BHACkan.DataFrame.mk ["zip_code", "source"]
          [[BHACkan.Cell.str "02108", BHACkan.Cell.str "orig"]])
      = BHACkan.DataFrame.mk ["zip_code", "source", "updated_at"]
          [[BHACkan.Cell.str "02108", BHACkan.Cell.str "BHA", BHACkan.Cell.str "T"]]
    ∧ BHACkan.Cell.str "BHA" ≠ BHACkan.Cell.str "orig" :=
  ⟨by decide, by decide⟩

/-- Claim C10, witness: the amended frame property evaluated on a concrete
one-column table. -/
theorem c10_transform_frame_witness :
    (BHACkan.transform_data "T" (BHACkan.DataFrame.mk ["zip_code"] [[BHACkan.Cell.str "02108"]])).columns
      = ["zip_code"] ++ ["source", "updated_at"]
    ∧ (BHACkan.transform_data "T" (BHACkan.DataFrame.mk ["zip_code"] [[BHACkan.Cell.str "02108"]])).rows
      = [[BHACkan.Cell.str "02108"]].map (fun r => r ++ [BHACkan.Cell.str "BHA", BHACkan.Cell.str "T"])
    ∧ (∀ (df2 : BHACkan.DataFrame), BHACkan.transform_data_result true "T" df2 = df2) :=
  c10_transform_frame_amended "T" (BHACkan.DataFrame.mk ["zip_code"] [[BHACkan.Cell.str "02108"]])
    (by decide) (by decide)
